import Mathlib

/-!
Shallow embedding of the command registration and dispatch framework in
`alburnum/maas/flesh/__init__.py`: colorized output, the specialised
argument parser with its lazily-materialized subcommand registry and
overridden error path, command name derivation, the command archetypes
(table-emitting, profile-bound), parser-tree assembly, and the top-level
dispatch loop with its recovery policy.
-/

/-- A piece of colorclass-markup text: either plain text or a color code
such as `autored` / `/autored` (written `{autored}`, `{/autored}` in the
Python source). -/
inductive Chunk
  | text (s : String)
  | color (code : String)
deriving DecidableEq, Repr

/-- Markup text is a sequence of chunks. -/
abbrev CText := List Chunk

/-- Model of `colorclass.Color(...).value_no_colors`: the text with all color codes
stripped. -/
def valueNoColors (t : CText) : CText :=
  t.filter fun c => match c with
    | Chunk.text _ => true
    | Chunk.color _ => false

/-- Whether a piece of markup text carries any color code. -/
def hasColor (t : CText) : Bool :=
  t.any fun c => match c with
    | Chunk.text _ => false
    | Chunk.color _ => true

/-- Terminal attachment of the process's standard streams
(`sys.stdout.isatty()`, `sys.stderr.isatty()`, `sys.stdin.isatty()`). -/
structure TtyEnv where
  stdoutAtty : Bool
  stderrAtty : Bool
  stdinAtty : Bool
deriving DecidableEq, Repr

/-- Embedding of `colorized(text)`: return the colored text when standard output is a
terminal, else the color-stripped value (`value_no_colors`). The decision
reads `sys.stdout.isatty()` only. -/
def colorized (env : TtyEnv) (text : CText) : CText :=
  if env.stdoutAtty then text else valueNoColors text

/-- Python `str.replace("_", "-")` for a single-character pattern: a
character-wise map. -/
def pyReplaceUnderscore (cs : List Char) : List Char :=
  cs.map fun c => if c = '_' then '-' else c

/-- Embedding of `Command.name()`: the class identifier with underscores replaced by
hyphens, lower-cased, and a leading `cmd-` stripped by slicing off the
first four characters when present. -/
def Command.name (clsName : String) : String :=
  let n : List Char := (pyReplaceUnderscore clsName.data).map Char.toLower
  if n.take 4 = "cmd-".data then String.mk (n.drop 4) else String.mk n

/-- The colorclass markup prefix `{autored}Error:{/autored} ` used by
`ArgumentParser.error`. -/
def errorPrefix : CText :=
  [Chunk.color "autored", Chunk.text "Error:", Chunk.color "/autored",
   Chunk.text " "]

/-- Observable outcome of a terminating error path. -/
structure ErrorExit where
  status : Nat
  stderrText : CText
  printedUsage : Bool
  printedHelp : Bool
  enteredPostMortem : Bool
deriving DecidableEq, Repr

/-- Standard-library `argparse.ArgumentParser.exit(status, message)`:
write the message to standard error and terminate with the given status;
nothing else is printed. -/
def argparseExit (status : Nat) (message : CText) : ErrorExit :=
  { status := status, stderrText := message, printedUsage := false,
    printedHelp := false, enteredPostMortem := false }

/-- The overridden `ArgumentParser.error(message)`: a single call to
`self.exit(2, colorized("{autored}Error:{/autored} ") + message + "\n")`. -/
def ArgumentParser.error (env : TtyEnv) (message : String) : ErrorExit :=
  argparseExit 2
    (colorized env errorPrefix ++ [Chunk.text message, Chunk.text "\n"])

/-- Render targets of the tabular module. Modelled from the spec: the
`tabular` module is not under `src/`; the spec describes "a closed
enumeration of supported render targets (pretty, plain, and one or more
structured dump formats)". -/
inductive RenderTarget
  | pretty
  | plain
  | dump
deriving DecidableEq, Repr

/-- Enumeration of every render target. -/
def RenderTarget.all : List RenderTarget :=
  [RenderTarget.pretty, RenderTarget.plain, RenderTarget.dump]

/-- Values held by parsed options and argument defaults. -/
inductive PVal
  | str (s : String)
  | target (t : RenderTarget)
  | boolv (b : Bool)
  | pynone
  | execOf (clsName : String)
deriving DecidableEq, Repr

/-- Help text of a declared flag: shown text, or `argparse.SUPPRESS`. -/
inductive HelpKind
  | shown (text : String)
  | suppressedHelp
deriving DecidableEq, Repr

/-- One declared optional flag (one `add_argument` call). -/
structure ArgSpec where
  flag : String
  dest : String
  required : Bool
  choiceVals : Option (List PVal)
  defaultVal : Option PVal
  helpKind : HelpKind
  storeTrue : Bool
deriving DecidableEq, Repr

/-- Update an association list: replace the value at a key, or append. -/
def updAssoc (kvs : List (String × PVal)) (k : String) (v : PVal) :
    List (String × PVal) :=
  if kvs.any fun kv => kv.1 = k then
    kvs.map fun kv => if kv.1 = k then (k, v) else kv
  else kvs ++ [(k, v)]

/-- A child parser node created by `add_parser`: its name, help texts,
declared flags and parser-level defaults. (No claim exercises a
sub-registry below depth one, so child nodes carry none.) -/
structure ChildNode where
  cname : String
  helpText : Option String
  descText : Option String
  epilogText : Option String
  cargs : List ArgSpec
  cdefaults : List (String × PVal)
deriving DecidableEq, Repr

/-- The subcommand registry object created by the standard library's
`add_subparsers`: its identity, title, metavar and registered children. -/
structure Registry where
  rid : Nat
  title : String
  metavar : Option String
  children : List ChildNode
deriving DecidableEq, Repr

/-- The specialised `ArgumentParser`: declared flags, parser-level
defaults (`set_defaults`), and the lazily materialized subcommand
registry (`self.__subparsers`, absent until first access). `nextRid`
numbers registry creations so object identity is observable. -/
structure ArgumentParser where
  prog : String
  args : List ArgSpec
  defaults : List (String × PVal)
  registry : Option Registry
  nextRid : Nat
deriving DecidableEq, Repr

/-- Standard-library `add_subparsers(title=...)`: create a fresh registry
with the given title and no metavar. -/
def argparseAddSubparsers (p : ArgumentParser) (title : String) :
    Registry × ArgumentParser :=
  (⟨p.nextRid, title, Option.none, []⟩, { p with nextRid := p.nextRid + 1 })

/-- The overridden one-shot `add_subparsers`: always raises
`NotImplementedError`. -/
def ArgumentParser.add_subparsers (_p : ArgumentParser) :
    Except String (Registry × ArgumentParser) :=
  Except.error "add_subparsers has been disabled"

/-- The lazy `subparsers` property: return the stored registry if present;
otherwise call the parent class's `add_subparsers(title="sub-commands")`,
set its metavar to `COMMAND`, store it, and return it. -/
def ArgumentParser.subparsers (p : ArgumentParser) :
    Registry × ArgumentParser :=
  match p.registry with
  | Option.some r => (r, p)
  | Option.none =>
    let rp := argparseAddSubparsers p "sub-commands"
    let r := { rp.1 with metavar := Option.some "COMMAND" }
    (r, { rp.2 with registry := Option.some r })

/-- Apply `set_defaults` on a child node: update the parser-level default
mapping and, argparse-style, overwrite the default of any declared flag
whose dest matches. -/
def childSetDefaults (c : ChildNode) (k : String) (v : PVal) : ChildNode :=
  { c with
    cdefaults := updAssoc c.cdefaults k v,
    cargs := c.cargs.map fun a =>
      if a.dest = k then { a with defaultVal := Option.some v } else a }

/-- Standard-library resolution of one optional flag: an explicit value
must be among the choices; a missing value errors when the flag is
required and otherwise falls back to the flag's default (None when no
default was declared). -/
def resolveOptArg (a : ArgSpec) (given : Option PVal) : Except String PVal :=
  match given with
  | Option.some v =>
    match a.choiceVals with
    | Option.some cs =>
      if v ∈ cs then Except.ok v
      else Except.error ("argument " ++ a.flag ++ ": invalid choice")
    | Option.none => Except.ok v
  | Option.none =>
    if a.required then
      Except.error ("the following arguments are required: " ++ a.flag)
    else Except.ok (a.defaultVal.getD PVal.pynone)

/-- Named connection profile. Modelled from the spec: profile storage is
not under `src/`; the spec's data model gives a profile a `name` (string,
unique key) and otherwise-opaque connection parameters. -/
structure Profile where
  name : String
deriving DecidableEq, Repr

/-- The `--profile-name` flag declared by `OriginCommandBase.__init__`:
choices are the startup profile names, and the flag is required exactly
when no default profile exists. -/
def profileNameArg (names : List String) (dflt : Option Profile) : ArgSpec :=
  { flag := "--profile-name", dest := "profile_name",
    required := dflt.isNone,
    choiceVals := Option.some (names.map PVal.str),
    defaultVal := Option.none,
    helpKind := HelpKind.shown
      ("The name of the remote MAAS instance to use. Use " ++
       "`list-profiles` to obtain a list of valid profiles." ++
       (if dflt.isNone then "" else " [default: %(default)s]")),
    storeTrue := false }

/-- Embedding of `OriginCommandBase.__init__`: declare `--profile-name`
on the command's parser node and, when a default profile exists, set the
node's `profile_name` default to that profile's name. -/
def originCommandBaseInit (names : List String) (dflt : Option Profile)
    (c : ChildNode) : ChildNode :=
  let c1 := { c with cargs := c.cargs ++ [profileNameArg names dflt] }
  match dflt with
  | Option.some d => childSetDefaults c1 "profile_name" (PVal.str d.name)
  | Option.none => c1

/-- The `--output-format` flag declared by `TableCommand.__init__`:
choices are the whole `RenderTarget` enumeration, and the default is
`pretty` when standard output is a terminal and `plain` otherwise. -/
def outputFormatArg (stdoutAtty : Bool) : ArgSpec :=
  { flag := "--output-format", dest := "output_format",
    required := false,
    choiceVals := Option.some (RenderTarget.all.map PVal.target),
    defaultVal := Option.some (PVal.target
      (if stdoutAtty then RenderTarget.pretty else RenderTarget.plain)),
    helpKind := HelpKind.shown
      ("Output tabular data as a formatted table (pretty), a " ++
       "formatted table using only ASCII for borders (plain), or " ++
       "one of several dump formats. Default: %(default)s."),
    storeTrue := false }

/-- Embedding of `TableCommand.__init__`: declare `--output-format` on
the command's parser node. -/
def tableCommandInit (stdoutAtty : Bool) (c : ChildNode) : ChildNode :=
  { c with cargs := c.cargs ++ [outputFormatArg stdoutAtty] }

/-- A parser node with no flags and no defaults, as `add_parser` creates
it before a command's constructor runs. -/
def emptyChild (nm : String) : ChildNode :=
  { cname := nm, helpText := Option.none, descText := Option.none,
    epilogText := Option.none, cargs := [], cdefaults := [] }

/-- Resolution of the `--profile-name` flag on a node initialised by
`OriginCommandBase.__init__`, from the startup profile list, the default
profile and the explicitly supplied value (if any). -/
def parseProfileFlag (names : List String) (dflt : Option Profile)
    (given : Option PVal) : Except String PVal :=
  match (originCommandBaseInit names dflt (emptyChild "c")).cargs with
  | [a] => resolveOptArg a given
  | _ => Except.error "unreachable: exactly one flag is declared"

/-- Outcome of resolving `--profile-name`, with parse failures routed
through the parser's overridden error path. -/
def parseProfileOutcome (env : TtyEnv) (names : List String)
    (dflt : Option Profile) (given : Option PVal) :
    Except ErrorExit PVal :=
  match parseProfileFlag names dflt given with
  | Except.ok v => Except.ok v
  | Except.error m => Except.error (ArgumentParser.error env m)

/-- Append a newly created child node to a registry. -/
def registryAddChild (r : Registry) (c : ChildNode) : Registry :=
  { r with children := r.children ++ [c] }

/-- Store a registry back on its parser (the property keeps the single
registry in `self.__subparsers`). -/
def ArgumentParser.putRegistry (p : ArgumentParser) (r : Registry) :
    ArgumentParser :=
  { p with registry := Option.some r }

/-- Embedding of `parser.subparsers.add_parser(name, help=...)` for the
grouping-only verb nodes: create a child with help text and nothing else. -/
def addGroupNode (p : ArgumentParser) (nm helpText : String) :
    ArgumentParser :=
  let rp := p.subparsers
  rp.2.putRegistry (registryAddChild rp.1
    { emptyChild nm with helpText := Option.some helpText })

/-- Embedding of `Command.register(parser)`: obtain the parent's
subcommand registry, create a child node named by `Command.name` whose
help and description are the docstring title and whose epilog is the
docstring body, run the command's constructor against that node (which
declares its flags), and set the node's `execute` default to the
constructed command instance. -/
def registerCommand (p : ArgumentParser) (clsName helpTitle helpBody : String)
    (initFn : ChildNode → ChildNode) : ArgumentParser :=
  let rp := p.subparsers
  let c0 := { emptyChild (Command.name clsName) with
    helpText := Option.some helpTitle,
    descText := Option.some helpTitle,
    epilogText := Option.some helpBody }
  let c1 := initFn c0
  let c2 := childSetDefaults c1 "execute" (PVal.execOf clsName)
  rp.2.putRegistry (registryAddChild rp.1 c2)

/-- Embedding of `cmd_shell.__init__`: declare an optional
`--profile-name` (never required) and default `profile_name` to the
default profile's name, or to None when no default exists. -/
def cmdShellInit (names : List String) (dflt : Option Profile)
    (c : ChildNode) : ChildNode :=
  let a : ArgSpec :=
    { flag := "--profile-name", dest := "profile_name", required := false,
      choiceVals := Option.some (names.map PVal.str),
      defaultVal := Option.none,
      helpKind := HelpKind.shown
        ("The name of the remote MAAS instance to use. Use " ++
         "`list-profiles` to obtain a list of valid profiles." ++
         (if dflt.isNone then "" else " [default: %(default)s]")),
      storeTrue := false }
  let c1 := { c with cargs := c.cargs ++ [a] }
  match dflt with
  | Option.none => childSetDefaults c1 "profile_name" PVal.pynone
  | Option.some d => childSetDefaults c1 "profile_name" (PVal.str d.name)

/-- Docstring title of `cmd_shell` (via `utils.parse_docstring`). -/
def shellHelpTitle : String :=
  "Start an interactive shell with some convenient local variables."

/-- Docstring body of `cmd_shell` (via `utils.parse_docstring`). -/
def shellHelpBody : String :=
  "If IPython is available it will be used, otherwise the familiar " ++
  "Python REPL will be started. If a script is piped in, it is read in " ++
  "its entirety then executed with the same namespace as the " ++
  "interactive shell."

/-- The hidden global `--debug` flag registered last on the root:
`store_true`, default `False`, help suppressed. -/
def debugArg : ArgSpec :=
  { flag := "--debug", dest := "debug", required := false,
    choiceVals := Option.none,
    defaultVal := Option.some (PVal.boolv false),
    helpKind := HelpKind.suppressedHelp, storeTrue := true }

/-- One step of parser-tree assembly, for the build trace. -/
inductive BuildEvent
  | registeredCommand (nm : String)
  | addedGroup (nm : String)
  | invokedModuleRegister (modName : String)
  | addedRootArg (flag : String)
deriving DecidableEq, Repr

/-- The fixed, ordered list of command-group submodules. -/
def submoduleNames : List String :=
  ["profiles", "files", "nodes", "tags", "users"]

/-- The four grouping-only verb nodes with their help text, in source
order. -/
def groupNodes : List (String × String) :=
  [("acquire", "Acquire nodes or other resources."),
   ("launch", "Launch nodes or other resources."),
   ("release", "Release nodes or other resources."),
   ("list", "List nodes, files, tags, and other resources.")]

/-- First two stages of `prepare_parser`: register `cmd_shell` at the
root, then create the four grouping-only verb nodes. -/
def prepareParserBase (names : List String) (dflt : Option Profile)
    (prog : String) : ArgumentParser × List BuildEvent :=
  let p0 : ArgumentParser :=
    { prog := prog, args := [], defaults := [],
      registry := Option.none, nextRid := 0 }
  let p1 := registerCommand p0 "cmd_shell" shellHelpTitle shellHelpBody
    (cmdShellInit names dflt)
  groupNodes.foldl
    (fun acc g =>
      (addGroupNode acc.1 g.1 g.2, acc.2 ++ [BuildEvent.addedGroup g.1]))
    (p1, [BuildEvent.registeredCommand (Command.name "cmd_shell")])

/-- Embedding of `prepare_parser`: after the base stages, load each
command-group submodule in order and invoke its `register` entry point
(abstracted as `moduleReg`, since those modules are not under `src/`),
and finally declare the hidden `--debug` flag on the root. The build
trace records each step in execution order. -/
def prepareParser (names : List String) (dflt : Option Profile)
    (moduleReg : String → ArgumentParser → ArgumentParser)
    (prog : String) : ArgumentParser × List BuildEvent :=
  let base := prepareParserBase names dflt prog
  let loaded := submoduleNames.foldl
    (fun acc m =>
      (moduleReg m acc.1, acc.2 ++ [BuildEvent.invokedModuleRegister m]))
    base
  ({ loaded.1 with args := loaded.1.args ++ [debugArg] },
   loaded.2 ++ [BuildEvent.addedRootArg "--debug"])

/-- Behaviour of the resolved `execute` entry point when invoked. -/
inductive ExecBehavior
  | ok
  | interrupt
  | exn (msg : String)
deriving DecidableEq, Repr

/-- Result of `parse_args` as `main` observes it: the parsed options
carry the resolved `execute` entry point (absent when no subcommand, or
only grouping nodes, matched) and the hidden debug flag. -/
structure ParsedOptions where
  execute : Option ExecBehavior
  debug : Bool
deriving DecidableEq, Repr

/-- Outcome of the `parser.parse_args(argv[1:])` call inside `main`'s
try block: a parsed options value, a parse error (the overridden `error`
raised `SystemExit(2)` carrying the message), a keyboard interrupt, or
any other exception escaping the parse. -/
inductive ParseAttempt
  | parsed (opts : ParsedOptions)
  | parseError (msg : String)
  | interrupted
  | failed (msg : String)
deriving DecidableEq, Repr

/-- Process termination: a `SystemExit`-style exit with a status, or an
exception re-raised out of `main` (abnormal termination). -/
inductive Term
  | exit (code : Nat)
  | reraised (msg : String)
deriving DecidableEq, Repr

/-- Observable outcome of one `main` invocation: how the process
terminated, what the error path wrote to standard error, and the
traceback handed to the post-mortem inspector, if it ran. -/
structure MainResult where
  term : Term
  stderrText : CText
  postMortemTb : Option String
deriving DecidableEq, Repr

/-- Embedding of the dispatch loop `main`. `SystemExit` raised by the
parser's error path is not an `Exception`, so it propagates straight
out; `KeyboardInterrupt` maps to exit status 1; any other exception
enters post-mortem and is re-raised when options are still None or the
debug flag is set, and otherwise is reported through the parser's error
path (exit status 2). Parsed options without an `execute` entry point
are reported as "No arguments given." through the same error path. -/
def mainLoop (env : TtyEnv) (parse : ParseAttempt) : MainResult :=
  match parse with
  | ParseAttempt.parseError msg =>
    let e := ArgumentParser.error env msg
    { term := Term.exit e.status, stderrText := e.stderrText,
      postMortemTb := Option.none }
  | ParseAttempt.interrupted =>
    { term := Term.exit 1, stderrText := [], postMortemTb := Option.none }
  | ParseAttempt.failed msg =>
    { term := Term.reraised msg, stderrText := [],
      postMortemTb := Option.some msg }
  | ParseAttempt.parsed opts =>
    match opts.execute with
    | Option.none =>
      let e := ArgumentParser.error env "No arguments given."
      { term := Term.exit e.status, stderrText := e.stderrText,
        postMortemTb := Option.none }
    | Option.some beh =>
      match beh with
      | ExecBehavior.ok =>
        { term := Term.exit 0, stderrText := [],
          postMortemTb := Option.none }
      | ExecBehavior.interrupt =>
        { term := Term.exit 1, stderrText := [],
          postMortemTb := Option.none }
      | ExecBehavior.exn msg =>
        if opts.debug then
          { term := Term.reraised msg, stderrText := [],
            postMortemTb := Option.some msg }
        else
          let e := ArgumentParser.error env msg
          { term := Term.exit e.status, stderrText := e.stderrText,
            postMortemTb := Option.none }

/-- Options of a profile-bound command invocation, as its `__call__`
reads them. -/
structure RunOptions where
  profileName : String
  outputFormat : RenderTarget
deriving DecidableEq, Repr

/-- One external-collaborator call made during a profile-bound command's
`__call__`. Session and origin constructors are modelled from the spec:
`bones.SessionAPI` and `viscera.Origin` are not under `src/`; each is
"consumed as a single constructor call". Constructed objects are
numbered so each call names the object it received. -/
inductive RunEvent
  | sessionFromProfile (profileName : String) (sid : Nat)
  | originFromSession (sid : Nat) (oid : Nat)
  | executeCalled (oid : Nat) (opts : RunOptions) (target : Option RenderTarget)
deriving DecidableEq, Repr

/-- Trace state threaded through a command invocation. -/
structure RunSt where
  ctr : Nat
  events : List RunEvent
deriving DecidableEq, Repr

/-- Modelled from the spec: `bones.SessionAPI.fromProfileName(name)` —
construct one session for the profile name. -/
def sessionFromProfileName (pname : String) (s : RunSt) : Nat × RunSt :=
  (s.ctr, { ctr := s.ctr + 1,
            events := s.events ++ [RunEvent.sessionFromProfile pname s.ctr] })

/-- Modelled from the spec: `viscera.Origin(session)` — construct one
origin wrapping the session. -/
def originFromSession (sid : Nat) (s : RunSt) : Nat × RunSt :=
  (s.ctr, { ctr := s.ctr + 1,
            events := s.events ++ [RunEvent.originFromSession sid s.ctr] })

/-- Record the delegation to the subclass's narrower `execute`. -/
def executeDelegate (oid : Nat) (opts : RunOptions)
    (target : Option RenderTarget) (s : RunSt) : RunSt :=
  { s with events := s.events ++ [RunEvent.executeCalled oid opts target] }

/-- Embedding of `OriginCommand.__call__`: build a session from the
profile name, wrap it in an origin, and delegate to
`self.execute(origin, options)`. -/
def OriginCommand.call (opts : RunOptions) (s : RunSt) : RunSt :=
  let s1 := sessionFromProfileName opts.profileName s
  let s2 := originFromSession s1.1 s1.2
  executeDelegate s2.1 opts Option.none s2.2

/-- Embedding of `OriginTableCommand.__call__`: as `OriginCommand.call`,
but delegating to
`self.execute(origin, options, target=options.output_format)`. -/
def OriginTableCommand.call (opts : RunOptions) (s : RunSt) : RunSt :=
  let s1 := sessionFromProfileName opts.profileName s
  let s2 := originFromSession s1.1 s1.2
  executeDelegate s2.1 opts (Option.some opts.outputFormat) s2.2

/-- Stripping color codes leaves text with no color code. -/
lemma hasColor_valueNoColors (t : CText) : hasColor (valueNoColors t) = false := by
  induction t with
  | nil => rfl
  | cons c rest ih => cases c <;> simp [valueNoColors, hasColor] at ih ⊢ <;> exact ih

/-- Color presence distributes over concatenation. -/
lemma hasColor_append (s t : CText) :
    hasColor (s ++ t) = (hasColor s || hasColor t) := by
  simp [hasColor, List.any_append]

/-- C3 counterexample: a class named `CmdFooBar` does not yield
`foo-bar`; CamelCase is not split, so the derived name is `cmdfoobar`. -/
theorem c3_camelcase_not_split :
    Command.name "CmdFooBar" = "cmdfoobar" ∧
    ¬ (Command.name "CmdFooBar" = "foo-bar") := by
  decide

/-- C3 (amended): `name()` lower-cases the identifier with underscores
replaced by hyphens and strips a leading `cmd-` exactly once; CamelCase
is not split, so `cmd_foo_bar` (not `CmdFooBar`) yields `foo-bar`,
`cmd_list_nodes` (derived form `cmd-list-nodes`) yields `list-nodes`,
and the prefix is stripped at most once. -/
theorem c3_name_derivation :
    Command.name "cmd_foo_bar" = "foo-bar" ∧
    Command.name "cmd_list_nodes" = "list-nodes" ∧
    Command.name "CmdFooBar" = "cmdfoobar" ∧
    Command.name "cmd_cmd_list_nodes" = "cmd-list-nodes" ∧
    Command.name "cmd_shell" = "shell" := by
  decide

/-- C1: on an unrecoverable parse error the overridden error path writes
the colorized `Error:` prefix plus the message to standard error and
terminates with exit status 2 without entering post-mortem — but it
prints neither the usage nor the help text, contradicting the claim and
the method's own docstring. -/
theorem c1_error_path_prints_no_help :
    (ArgumentParser.error ⟨true, true, true⟩
        "unrecognized arguments: --bogus" =
      { status := 2,
        stderrText :=
          [Chunk.color "autored", Chunk.text "Error:",
           Chunk.color "/autored", Chunk.text " ",
           Chunk.text "unrecognized arguments: --bogus", Chunk.text "\n"],
        printedUsage := false, printedHelp := false,
        enteredPostMortem := false }) ∧
    (ArgumentParser.error ⟨false, false, false⟩
        "unrecognized arguments: --bogus").printedHelp = false ∧
    (ArgumentParser.error ⟨false, false, false⟩
        "unrecognized arguments: --bogus").printedUsage = false ∧
    (mainLoop ⟨false, false, false⟩
        (ParseAttempt.parseError "unrecognized arguments: --bogus")).term =
      Term.exit 2 ∧
    (mainLoop ⟨false, false, false⟩
        (ParseAttempt.parseError "unrecognized arguments: --bogus")).postMortemTb =
      Option.none := by
  decide

/-- C2: on a node whose registry is not yet materialized, the first
access to `subparsers` creates the registry configured with title
`sub-commands` and metavar `COMMAND`, stores it, and bumps the creation
counter once; a second access returns the identical registry and state
without creating anything; and the one-shot `add_subparsers` always
raises instead of creating a second registry. -/
theorem c2_subparsers_idempotent (p : ArgumentParser)
    (h : p.registry = Option.none) :
    p.subparsers.1.title = "sub-commands" ∧
    p.subparsers.1.metavar = Option.some "COMMAND" ∧
    p.subparsers.2.registry = Option.some p.subparsers.1 ∧
    (p.subparsers.2).subparsers = p.subparsers ∧
    p.subparsers.2.nextRid = p.nextRid + 1 ∧
    (∀ q : ArgumentParser, q.add_subparsers =
      Except.error "add_subparsers has been disabled") := by
  simp [ArgumentParser.subparsers, argparseAddSubparsers,
    ArgumentParser.add_subparsers, h]

/-- C2 witness: the fresh root parser instantiates the idempotence and
configuration properties. -/
theorem c2_subparsers_idempotent_witness :
    let p : ArgumentParser :=
      { prog := "maas", args := [], defaults := [],
        registry := Option.none, nextRid := 0 }
    p.subparsers.1.title = "sub-commands" ∧
    p.subparsers.1.metavar = Option.some "COMMAND" ∧
    (p.subparsers.2).subparsers = p.subparsers := by
  have h := c2_subparsers_idempotent
    { prog := "maas", args := [], defaults := [],
      registry := Option.none, nextRid := 0 } rfl
  exact ⟨h.1, h.2.1, h.2.2.2.1⟩

/-- C6: whenever the parsed options carry no `execute` entry point, the
dispatch loop reports the literal message `No arguments given.` through
the parser's error path and the process exits with status 2. -/
theorem c6_no_arguments_given (env : TtyEnv) (opts : ParsedOptions)
    (h : opts.execute = Option.none) :
    mainLoop env (ParseAttempt.parsed opts) =
      { term := Term.exit 2,
        stderrText := colorized env errorPrefix ++
          [Chunk.text "No arguments given.", Chunk.text "\n"],
        postMortemTb := Option.none } := by
  simp [mainLoop, ArgumentParser.error, argparseExit, h]

/-- C6 witness: invoking with zero arguments (empty options, debug off)
yields the fixed message and exit status 2. -/
theorem c6_no_arguments_given_witness :
    mainLoop ⟨false, false, false⟩
        (ParseAttempt.parsed { execute := Option.none, debug := false }) =
      { term := Term.exit 2,
        stderrText := colorized ⟨false, false, false⟩ errorPrefix ++
          [Chunk.text "No arguments given.", Chunk.text "\n"],
        postMortemTb := Option.none } :=
  c6_no_arguments_given ⟨false, false, false⟩
    { execute := Option.none, debug := false } rfl

/-- C7: a user interrupt exits with status 1 without reporting; any
other exception enters post-mortem bound to the failure's traceback and
is re-raised when options are still unparsed or the debug flag is set;
otherwise its string form is reported through the colorized error path
with exit status 2. -/
theorem c7_recovery_policy (env : TtyEnv) (opts : ParsedOptions)
    (msg : String) :
    (mainLoop env ParseAttempt.interrupted =
      { term := Term.exit 1, stderrText := [],
        postMortemTb := Option.none }) ∧
    (opts.execute = Option.some ExecBehavior.interrupt →
      mainLoop env (ParseAttempt.parsed opts) =
        { term := Term.exit 1, stderrText := [],
          postMortemTb := Option.none }) ∧
    (mainLoop env (ParseAttempt.failed msg) =
      { term := Term.reraised msg, stderrText := [],
        postMortemTb := Option.some msg }) ∧
    (opts.execute = Option.some (ExecBehavior.exn msg) →
      opts.debug = true →
      mainLoop env (ParseAttempt.parsed opts) =
        { term := Term.reraised msg, stderrText := [],
          postMortemTb := Option.some msg }) ∧
    (opts.execute = Option.some (ExecBehavior.exn msg) →
      opts.debug = false →
      mainLoop env (ParseAttempt.parsed opts) =
        { term := Term.exit 2,
          stderrText := colorized env errorPrefix ++
            [Chunk.text msg, Chunk.text "\n"],
          postMortemTb := Option.none }) := by
  refine ⟨rfl, ?_, rfl, ?_, ?_⟩ <;>
    intro h1 <;>
    first
      | (intro h2 <;> simp [mainLoop, ArgumentParser.error, argparseExit, h1, h2])
      | simp [mainLoop, ArgumentParser.error, argparseExit, h1]

/-- C7 witness: the three execute-time branches at concrete inputs — an
interrupting command exits 1, a raising command with debug set enters
post-mortem and is re-raised, and a raising command without debug is
reported through the error path with status 2. -/
theorem c7_recovery_policy_witness :
    (mainLoop ⟨false, false, false⟩ (ParseAttempt.parsed
        { execute := Option.some ExecBehavior.interrupt, debug := false }) =
      { term := Term.exit 1, stderrText := [],
        postMortemTb := Option.none }) ∧
    (mainLoop ⟨false, false, false⟩ (ParseAttempt.parsed
        { execute := Option.some (ExecBehavior.exn "boom"), debug := true }) =
      { term := Term.reraised "boom", stderrText := [],
        postMortemTb := Option.some "boom" }) ∧
    (mainLoop ⟨false, false, false⟩ (ParseAttempt.parsed
        { execute := Option.some (ExecBehavior.exn "disk full"),
          debug := false }) =
      { term := Term.exit 2,
        stderrText := colorized ⟨false, false, false⟩ errorPrefix ++
          [Chunk.text "disk full", Chunk.text "\n"],
        postMortemTb := Option.none }) :=
  ⟨(c7_recovery_policy ⟨false, false, false⟩
      { execute := Option.some ExecBehavior.interrupt, debug := false }
      "m").2.1 rfl,
   (c7_recovery_policy ⟨false, false, false⟩
      { execute := Option.some (ExecBehavior.exn "boom"), debug := true }
      "boom").2.2.2.1 rfl rfl,
   (c7_recovery_policy ⟨false, false, false⟩
      { execute := Option.some (ExecBehavior.exn "disk full"),
        debug := false }
      "disk full").2.2.2.2 rfl rfl⟩

/-- C4: with no default profile the `--profile-name` flag is required
and omitting it fails with exit status 2; with a default profile,
omitting it resolves `profile_name` to the default's name; and an
explicitly supplied value is accepted exactly when it is one of the
startup profile names. -/
theorem c4_profile_name_flag (env : TtyEnv) (names : List String)
    (d : Profile) (dflt : Option Profile) (v : String) :
    (parseProfileOutcome env names Option.none Option.none =
      Except.error (ArgumentParser.error env
        "the following arguments are required: --profile-name") ∧
      (ArgumentParser.error env
        "the following arguments are required: --profile-name").status = 2) ∧
    (parseProfileOutcome env names (Option.some d) Option.none =
      Except.ok (PVal.str d.name)) ∧
    ((parseProfileOutcome env names dflt (Option.some (PVal.str v)) =
      Except.ok (PVal.str v)) ↔ v ∈ names) ∧
    (v ∉ names →
      parseProfileOutcome env names dflt (Option.some (PVal.str v)) =
        Except.error (ArgumentParser.error env
          "argument --profile-name: invalid choice") ∧
      (ArgumentParser.error env
        "argument --profile-name: invalid choice").status = 2) := by
  refine ⟨⟨?_, rfl⟩, ?_, ?_, ?_⟩
  · simp [parseProfileOutcome, parseProfileFlag, originCommandBaseInit,
      emptyChild, profileNameArg, resolveOptArg]
  · simp [parseProfileOutcome, parseProfileFlag, originCommandBaseInit,
      emptyChild, profileNameArg, resolveOptArg, childSetDefaults]
  · by_cases hm : v ∈ names <;>
      cases dflt <;>
      simp [parseProfileOutcome, parseProfileFlag, originCommandBaseInit,
        emptyChild, profileNameArg, resolveOptArg, childSetDefaults, hm]
  · intro hm
    refine ⟨?_, rfl⟩
    cases dflt <;>
      simp [parseProfileOutcome, parseProfileFlag, originCommandBaseInit,
        emptyChild, profileNameArg, resolveOptArg, childSetDefaults, hm]

/-- C4 witness: with profiles `prod` and `qa` and default `prod` —
omitting the flag resolves to `prod`; supplying `qa` is accepted;
omitting the flag with no default fails with status 2. -/
theorem c4_profile_name_flag_witness :
    (parseProfileOutcome ⟨false, false, false⟩ ["prod", "qa"]
        (Option.some ⟨"prod"⟩) Option.none =
      Except.ok (PVal.str "prod")) ∧
    (parseProfileOutcome ⟨false, false, false⟩ ["prod", "qa"]
        (Option.some ⟨"prod"⟩) (Option.some (PVal.str "qa")) =
      Except.ok (PVal.str "qa")) ∧
    (parseProfileOutcome ⟨false, false, false⟩ ["prod", "qa"]
        Option.none Option.none =
      Except.error (ArgumentParser.error ⟨false, false, false⟩
        "the following arguments are required: --profile-name")) :=
  ⟨(c4_profile_name_flag ⟨false, false, false⟩ ["prod", "qa"]
      ⟨"prod"⟩ (Option.some ⟨"prod"⟩) "qa").2.1,
   ((c4_profile_name_flag ⟨false, false, false⟩ ["prod", "qa"]
      ⟨"prod"⟩ (Option.some ⟨"prod"⟩) "qa").2.2.1).mpr (by decide),
   ((c4_profile_name_flag ⟨false, false, false⟩ ["prod", "qa"]
      ⟨"prod"⟩ Option.none "qa").1).1⟩

/-- C5: a table-emitting command declares `--output-format` whose
default is the pretty target when standard output is a terminal and the
plain target otherwise, and whose accepted values are exactly the whole
render-target enumeration. -/
theorem c5_output_format_flag (stdoutAtty : Bool) (c : ChildNode) :
    ((tableCommandInit stdoutAtty c).cargs =
      c.cargs ++ [outputFormatArg stdoutAtty]) ∧
    ((outputFormatArg stdoutAtty).defaultVal = Option.some (PVal.target
      (if stdoutAtty then RenderTarget.pretty else RenderTarget.plain))) ∧
    ((outputFormatArg true).defaultVal =
      Option.some (PVal.target RenderTarget.pretty)) ∧
    ((outputFormatArg false).defaultVal =
      Option.some (PVal.target RenderTarget.plain)) ∧
    ((outputFormatArg stdoutAtty).choiceVals =
      Option.some (RenderTarget.all.map PVal.target)) ∧
    (∀ t : RenderTarget, t ∈ RenderTarget.all) := by
  refine ⟨rfl, rfl, rfl, rfl, rfl, ?_⟩
  intro t
  cases t <;> simp [RenderTarget.all]

/-- C5 witness: on a fresh node with a terminal attached the declared
flag defaults to the pretty target, and without one to the plain
target. -/
theorem c5_output_format_flag_witness :
    ((tableCommandInit true (emptyChild "nodes")).cargs =
      [] ++ [outputFormatArg true]) ∧
    ((outputFormatArg true).defaultVal = Option.some (PVal.target
      (if true then RenderTarget.pretty else RenderTarget.plain))) ∧
    RenderTarget.dump ∈ RenderTarget.all :=
  ⟨(c5_output_format_flag true (emptyChild "nodes")).1,
   (c5_output_format_flag true (emptyChild "nodes")).2.1,
   (c5_output_format_flag true (emptyChild "nodes")).2.2.2.2.2
     RenderTarget.dump⟩

/-- C9: one invocation of a profile-bound command constructs exactly one
session from the resolved profile name, exactly one origin wrapping that
session, and then delegates to the narrower `execute` exactly once with
that origin and the options; the combined profile-bound table-emitting
archetype additionally passes the resolved output-format target. -/
theorem c9_origin_command_delegation (opts : RunOptions) (s : RunSt) :
    ((OriginCommand.call opts s).events = s.events ++
      [RunEvent.sessionFromProfile opts.profileName s.ctr,
       RunEvent.originFromSession s.ctr (s.ctr + 1),
       RunEvent.executeCalled (s.ctr + 1) opts Option.none]) ∧
    ((OriginTableCommand.call opts s).events = s.events ++
      [RunEvent.sessionFromProfile opts.profileName s.ctr,
       RunEvent.originFromSession s.ctr (s.ctr + 1),
       RunEvent.executeCalled (s.ctr + 1) opts
         (Option.some opts.outputFormat)]) := by
  constructor <;>
    simp [OriginCommand.call, OriginTableCommand.call,
      sessionFromProfileName, originFromSession, executeDelegate]

/-- C9 witness: a command bound to profile `prod`, run from an empty
trace, performs exactly the session, origin and delegation calls. -/
theorem c9_origin_command_delegation_witness :
    (OriginCommand.call ⟨"prod", RenderTarget.pretty⟩ ⟨0, []⟩).events =
      [] ++
      [RunEvent.sessionFromProfile "prod" 0,
       RunEvent.originFromSession 0 1,
       RunEvent.executeCalled 1 ⟨"prod", RenderTarget.pretty⟩
         Option.none] :=
  (c9_origin_command_delegation ⟨"prod", RenderTarget.pretty⟩ ⟨0, []⟩).1

/-- C10: `colorized` keeps color codes exactly when standard output is a
terminal, and the colorized `Error:` prefix written by the parser's
error path is colored or stripped according to standard output's
terminal status, independently of standard error's. -/
theorem c10_color_follows_stdout (env : TtyEnv) (t : CText) (m : String)
    (a b1 b2 i1 i2 : Bool) :
    (hasColor (colorized env t) = (env.stdoutAtty && hasColor t)) ∧
    (colorized ⟨a, b1, i1⟩ t = colorized ⟨a, b2, i2⟩ t) ∧
    (ArgumentParser.error ⟨a, b1, i1⟩ m =
      ArgumentParser.error ⟨a, b2, i2⟩ m) ∧
    (hasColor (ArgumentParser.error ⟨a, b1, i1⟩ m).stderrText = a) := by
  refine ⟨?_, ?_, ?_, ?_⟩
  · by_cases h : env.stdoutAtty <;>
      simp [colorized, h, hasColor_valueNoColors]
  · simp [colorized]
  · simp [ArgumentParser.error, argparseExit, colorized]
  · cases a
    · have hp : hasColor (colorized ⟨false, b1, i1⟩ errorPrefix) = false := by
        simp [colorized, hasColor_valueNoColors]
      show hasColor (colorized ⟨false, b1, i1⟩ errorPrefix ++
        [Chunk.text m, Chunk.text "\n"]) = false
      rw [hasColor_append, hp]
      rfl
    · simp [ArgumentParser.error, argparseExit, colorized, hasColor_append,
        hasColor, errorPrefix]

/-- C10 witness: at a concrete text, the error line keeps its color when
stdout is a terminal even though stderr is not, and drops it in the
reverse situation. -/
theorem c10_color_follows_stdout_witness :
    (hasColor (colorized ⟨true, false, false⟩ errorPrefix) =
      (true && hasColor errorPrefix)) ∧
    (ArgumentParser.error ⟨false, true, false⟩ "oops" =
      ArgumentParser.error ⟨false, false, true⟩ "oops") ∧
    (hasColor (ArgumentParser.error ⟨true, false, false⟩
      "oops").stderrText = true) :=
  ⟨(c10_color_follows_stdout ⟨true, false, false⟩ errorPrefix "oops"
      true false false false false).1,
   (c10_color_follows_stdout ⟨true, false, false⟩ errorPrefix "oops"
      false true false false true).2.2.1,
   (c10_color_follows_stdout ⟨true, false, false⟩ errorPrefix "oops"
      true false false false false).2.2.2⟩

/-- C8: parser-tree assembly is deterministic and order-sensitive — the
build trace always runs: register the shell command, create the four
grouping-only nodes `acquire`, `launch`, `release`, `list`, invoke the
command-group registration entry points in the fixed order `profiles`,
`files`, `nodes`, `tags`, `users`, and finally declare `--debug`; after
the first two stages the root's children are exactly the shell node
followed by the four grouping nodes, the grouping nodes carry no flags
and no `execute` entry point, and the `--debug` flag declared last on
the root is hidden from help and defaults to false. -/
theorem c8_tree_assembly_order (names : List String)
    (dflt : Option Profile)
    (moduleReg : String → ArgumentParser → ArgumentParser)
    (prog : String) :
    ((prepareParser names dflt moduleReg prog).2 =
      [BuildEvent.registeredCommand "shell",
       BuildEvent.addedGroup "acquire", BuildEvent.addedGroup "launch",
       BuildEvent.addedGroup "release", BuildEvent.addedGroup "list",
       BuildEvent.invokedModuleRegister "profiles",
       BuildEvent.invokedModuleRegister "files",
       BuildEvent.invokedModuleRegister "nodes",
       BuildEvent.invokedModuleRegister "tags",
       BuildEvent.invokedModuleRegister "users",
       BuildEvent.addedRootArg "--debug"]) ∧
    ((prepareParserBase names dflt prog).1.registry.map
        (fun r => r.children.map ChildNode.cname) =
      Option.some ["shell", "acquire", "launch", "release", "list"]) ∧
    ((prepareParserBase names dflt prog).1.registry.map
        (fun r => (r.children.filter fun c => c.cname != "shell").map
          fun c => (c.cname, c.cargs, c.cdefaults)) =
      Option.some [("acquire", [], []), ("launch", [], []),
                   ("release", [], []), ("list", [], [])]) ∧
    ((prepareParser names dflt moduleReg prog).1.args.getLast? =
      Option.some debugArg) ∧
    debugArg.helpKind = HelpKind.suppressedHelp ∧
    debugArg.defaultVal = Option.some (PVal.boolv false) ∧
    debugArg.storeTrue = true := by
  refine ⟨?_, ?_, ?_, ?_, rfl, rfl, rfl⟩
  · cases dflt <;>
      · simp [prepareParser, prepareParserBase, submoduleNames, groupNodes,
          registerCommand, addGroupNode, ArgumentParser.subparsers,
          argparseAddSubparsers, ArgumentParser.putRegistry, registryAddChild,
          cmdShellInit, childSetDefaults, updAssoc, emptyChild, List.foldl]
        decide
  · cases dflt <;>
      simp [prepareParserBase, groupNodes, registerCommand, addGroupNode,
        ArgumentParser.subparsers, argparseAddSubparsers,
        ArgumentParser.putRegistry, registryAddChild, cmdShellInit,
        childSetDefaults, updAssoc, emptyChild, Command.name,
        pyReplaceUnderscore, List.foldl]
  · cases dflt <;>
      simp [prepareParserBase, groupNodes, registerCommand, addGroupNode,
        ArgumentParser.subparsers, argparseAddSubparsers,
        ArgumentParser.putRegistry, registryAddChild, cmdShellInit,
        childSetDefaults, updAssoc, emptyChild, Command.name,
        pyReplaceUnderscore, List.foldl]
  · simp [prepareParser, List.getLast?_concat]

/-- C8 witness: with no profiles, no default and identity command-group
registration, the build trace is exactly the fixed sequence. -/
theorem c8_tree_assembly_order_witness :
    (prepareParser [] Option.none (fun _ p => p) "maas").2 =
      [BuildEvent.registeredCommand "shell",
       BuildEvent.addedGroup "acquire", BuildEvent.addedGroup "launch",
       BuildEvent.addedGroup "release", BuildEvent.addedGroup "list",
       BuildEvent.invokedModuleRegister "profiles",
       BuildEvent.invokedModuleRegister "files",
       BuildEvent.invokedModuleRegister "nodes",
       BuildEvent.invokedModuleRegister "tags",
       BuildEvent.invokedModuleRegister "users",
       BuildEvent.addedRootArg "--debug"] :=
  (c8_tree_assembly_order [] Option.none (fun _ p => p) "maas").1
